import Mathlib

/-!
Verification development for a minimal Google Maps Places HTTP client
(`src/lib.rs`).  The client is a typestate struct `GMapsClient<T>` with
phantom states `Invalidated` / `Validated`: construction (`new`) and key
loading (`load_api_key`) live on the `Invalidated` impl, the one forward
transition is `validate_api_key`, and two query methods live on the
`Validated` impl.

Shallow embedding conventions:
* Rust `String` values are modelled as `List Char` (`Str`); the only string
  operations the source performs (`starts_with`, `ends_with`, `remove(0)`,
  `remove(len-1)` where the removed characters are the one-byte ASCII `"`,
  and `format!` concatenation) are faithfully expressed on character lists.
* The network (HTTP GET followed by JSON decoding, as performed by
  `reqwest::get(url).await?.json::<serde_json::Value>().await?`) is an
  oracle `net : Str → Option Json` mapping the request URL to the decoded
  body; `none` means the request or the decoding failed.
* Rust panics (from `String::remove` / integer underflow in
  `load_api_key`, and from `.unwrap()` in the query methods) are the
  `PanicOr.panic` result; ordinary returns are `PanicOr.ok`.
* `serde_json::Value` is the inductive `Json`; number contents are
  abstracted to `Int` (no claim inspects a number).  Square-bracket
  indexing `value["status"]` is `Json.getField`, which yields `Json.null`
  on a missing key or a non-object, exactly as `serde_json`'s `Index`.
-/

namespace GMaps

/-- Rust `String`, modelled as its list of characters. -/
abbrev Str := List Char

/-- Turn a Lean string literal into the `Str` model. -/
def lit (s : String) : Str := s.data

/-- The one-byte ASCII double-quote character stripped by `load_api_key`. -/
def quoteChar : Char := Char.ofNat 34

/-- The error enum `GMapsClientError` of `src/lib.rs` (lines 20-35). -/
inductive GMapsClientError where
  | InvalidApiKey
  | ApiKeyLoadingFailure
  | RequestFailure
  | MissingApiKey
deriving DecidableEq

/-- Result of running a Rust function that can panic: either the process
aborts (`panic`) or the function returns a value. -/
inductive PanicOr (α : Type) where
  | panic : PanicOr α
  | ok : α → PanicOr α
deriving DecidableEq

/-- The two phantom-type states `Invalidated` and `Validated` of the
client (`src/lib.rs` lines 12-18). -/
inductive ClientState where
  | Invalidated
  | Validated
deriving DecidableEq

/-- `GMapsClient<T>` (`src/lib.rs` lines 37-42): the API key and the base
URL, tagged by the phantom state `T` (the `PhantomData<T>` field has no
runtime content and is represented by the index alone). -/
structure GMapsClient (T : ClientState) where
  api_key : Str
  base_url : Str
deriving DecidableEq

/-- `serde_json::Value`.  Number contents are abstracted to `Int`; the
claims never inspect numeric values. -/
inductive Json where
  | null : Json
  | bool : Bool → Json
  | num : Int → Json
  | str : String → Json
  | arr : List Json → Json
  | obj : List (String × Json) → Json

/-- `serde_json`'s `Index<&str>` on a `Value` (`value["status"]`): field
lookup on an object, `Null` for a missing key or a non-object value. -/
def Json.getField : Json → String → Json
  | .obj fields, key =>
    match fields.find? (fun p => p.1 == key) with
    | some p => p.2
    | none => .null
  | _, _ => .null

/-- `Value` equality against `json!(s)` for a string literal `s`: equal
exactly when the value is a string with the same content
(`serde_json::Value::eq`). -/
def Json.eqStr : Json → String → Bool
  | .str t, s => t == s
  | _, _ => false

/-- Rust `api_key.starts_with('"')`: true when the first character is the
double quote (`false` on the empty string). -/
def startsWithQuote (s : Str) : Bool :=
  match s with
  | [] => false
  | c :: _ => c == quoteChar

/-- Rust `api_key.ends_with('"')`: true when the last character is the
double quote (`false` on the empty string). -/
def endsWithQuote (s : Str) : Bool :=
  match s.getLast? with
  | some c => c == quoteChar
  | none => false

/-- `GMapsClient::<Invalidated>::load_api_key` (`src/lib.rs` lines 46-60).
`env` is the value of the `GMAPS_API_KEY` environment variable after the
(outcome-ignored) `.env` parse; `none` models an absent variable.  When
the value starts and ends with `"` the source calls `remove(0)` and then
`remove(api_key.len()-1)`; both removed characters are the one-byte ASCII
quote, so on the character-list model they are `tail` and `dropLast`.
When the value is the single character `"`, the first removal empties the
string and `api_key.len()-1` is `0usize - 1`: the second `remove` panics
(arithmetic underflow in debug builds, out-of-bounds index in release
builds). -/
def load_api_key (env : Option Str) : PanicOr (Except GMapsClientError Str) :=
  match env with
  | some api_key =>
    if startsWithQuote api_key && endsWithQuote api_key then
      match api_key with
      | [] => PanicOr.panic
      | _ :: rest =>
        match rest with
        | [] => PanicOr.panic
        | _ :: _ => PanicOr.ok (Except.ok rest.dropLast)
    else
      PanicOr.ok (Except.ok api_key)
  | none => PanicOr.ok (Except.error GMapsClientError.ApiKeyLoadingFailure)

/-- The hardcoded base URL `"https://maps.googleapis.com/"`. -/
def google_base_url : Str := lit "https://maps.googleapis.com/"

/-- `GMapsClient::<Invalidated>::new` (`src/lib.rs` lines 67-78): calls
`load_api_key` twice (the first result is discarded through `?`), then
builds the `Invalidated` client with the hardcoded base URL. -/
def new (env : Option Str) : PanicOr (Except GMapsClientError (GMapsClient ClientState.Invalidated)) :=
  match load_api_key env with
  | PanicOr.panic => PanicOr.panic
  | PanicOr.ok (Except.error e) => PanicOr.ok (Except.error e)
  | PanicOr.ok (Except.ok _) =>
    match load_api_key env with
    | PanicOr.panic => PanicOr.panic
    | PanicOr.ok (Except.error e) => PanicOr.ok (Except.error e)
    | PanicOr.ok (Except.ok api_key) =>
      PanicOr.ok (Except.ok { api_key := api_key, base_url := google_base_url })

/-- The URL built by `find_single_place_from_text` (`src/lib.rs` lines
124-125) and, with the local `base_url` and the fixed probe input, by
`validate_api_key` (lines 89-90): `format!` concatenation with the place
text inserted verbatim. -/
def find_single_place_url (base_url place api_key : Str) : Str :=
  base_url ++ lit "/maps/api/place/findplacefromtext/json?input=" ++ place
    ++ lit "&inputtype=textquery&fields=name,place_id,geometry,formatted_address&locationbias=point:50,10&key="
    ++ api_key

/-- The fixed probe input `"bosfor alba"` used by `validate_api_key`. -/
def probe_input : Str := lit "bosfor alba"

/-- The URL `validate_api_key` issues its GET to: built from the local
`base_url` variable (the hardcoded host), the probe input, and the held
key. -/
def validate_request (c : GMapsClient ClientState.Invalidated) : Str :=
  find_single_place_url google_base_url probe_input c.api_key

/-- `GMapsClient::<Invalidated>::validate_api_key` (`src/lib.rs` lines
85-110): issues the probe GET; request or decode failure maps to
`RequestFailure`; a decoded body whose `"status"` field equals
`json!("REQUEST_DENIED")` maps to `InvalidApiKey`; otherwise the
`Validated` client is built from `self.api_key` and `self.base_url`. -/
def validate_api_key (c : GMapsClient ClientState.Invalidated) (net : Str → Option Json) :
    Except GMapsClientError (GMapsClient ClientState.Validated) :=
  match net (validate_request c) with
  | none => Except.error GMapsClientError.RequestFailure
  | some response =>
    if (response.getField "status").eqStr "REQUEST_DENIED" then
      Except.error GMapsClientError.InvalidApiKey
    else
      Except.ok { api_key := c.api_key, base_url := c.base_url }

/-- The URL built by `find_places_from_text` (`src/lib.rs` lines 145-151):
`format!` with the query inserted verbatim and the radius argument `5000`
formatted into the string. -/
def find_places_url (base_url query api_key : Str) : Str :=
  base_url ++ lit "/maps/api/place/textsearch/json?query=" ++ query
    ++ lit "&radius=" ++ lit (Nat.repr 5000) ++ lit "&key="
    ++ api_key

/-- The URL `find_single_place_from_text` issues its GET to. -/
def find_single_place_request (c : GMapsClient ClientState.Validated) (place : Str) : Str :=
  find_single_place_url c.base_url place c.api_key

/-- The URL `find_places_from_text` issues its GET to. -/
def find_places_request (c : GMapsClient ClientState.Validated) (query : Str) : Str :=
  find_places_url c.base_url query c.api_key

/-- `GMapsClient::<Validated>::find_single_place_from_text` (`src/lib.rs`
lines 122-136): GET on the built URL, `.unwrap()` on the request and on
the decode (panic on failure), and the decoded body returned as is. -/
def find_single_place_from_text (c : GMapsClient ClientState.Validated) (place : Str)
    (net : Str → Option Json) : PanicOr Json :=
  match net (find_single_place_request c place) with
  | none => PanicOr.panic
  | some response => PanicOr.ok response

/-- `GMapsClient::<Validated>::find_places_from_text` (`src/lib.rs` lines
143-161): GET on the built URL, `.unwrap()` on the request and on the
decode (panic on failure), and the decoded body returned as is. -/
def find_places_from_text (c : GMapsClient ClientState.Validated) (query : Str)
    (net : Str → Option Json) : PanicOr Json :=
  match net (find_places_request c query) with
  | none => PanicOr.panic
  | some response => PanicOr.ok response

/-- The public operations of the library, one per method of the two impl
blocks (`load_api_key` and `new` are the construction surface). -/
inductive Operation where
  | construct
  | validate
  | findSinglePlace
  | findPlaces
deriving DecidableEq

/-- The operations each impl block offers (`impl GMapsClient<Invalidated>`
holds `load_api_key`, `new`, `validate_api_key`; `impl
GMapsClient<Validated>` holds the two query methods). -/
def availableOps : ClientState → List Operation
  | ClientState.Invalidated => [Operation.construct, Operation.validate]
  | ClientState.Validated => [Operation.findSinglePlace, Operation.findPlaces]

/-- Client values producible through the library's API: `new` is the only
producer of `Invalidated` clients and a successful `validate_api_key` on a
produced `Invalidated` client is the only producer of `Validated` clients
(the query methods return `Json`, never a client). -/
inductive Constructed : (s : ClientState) → GMapsClient s → Prop where
  | of_new : ∀ (env : Option Str) (c : GMapsClient ClientState.Invalidated),
      new env = PanicOr.ok (Except.ok c) → Constructed ClientState.Invalidated c
  | of_validate : ∀ (c : GMapsClient ClientState.Invalidated) (net : Str → Option Json)
      (v : GMapsClient ClientState.Validated),
      Constructed ClientState.Invalidated c → validate_api_key c net = Except.ok v →
      Constructed ClientState.Validated v

/-- Modelled from the spec's words (§6): the text-search endpoint URL
`GET /maps/api/place/textsearch/json?query=<text>&radius=5000&key=<credential>`
appended to the base address, each parameter its own segment. -/
def spec_places_url (base query credential : Str) : Str :=
  base ++ lit "/maps/api/place/textsearch/json" ++ lit "?query=" ++ query
    ++ lit "&radius=5000" ++ lit "&key=" ++ credential

/-- Modelled from the spec's words (§6): the find-place endpoint URL
`GET /maps/api/place/findplacefromtext/json?input=<text>&inputtype=textquery&fields=name,place_id,geometry,formatted_address&locationbias=point:50,10&key=<credential>`
appended to the base address, each parameter its own segment. -/
def spec_single_place_url (base input credential : Str) : Str :=
  base ++ lit "/maps/api/place/findplacefromtext/json" ++ lit "?input=" ++ input
    ++ lit "&inputtype=textquery"
    ++ lit "&fields=name,place_id,geometry,formatted_address"
    ++ lit "&locationbias=point:50,10"
    ++ lit "&key=" ++ credential

/-- `true` exactly on the result shape `Ok(Err(MissingApiKey))`. -/
def returnsMissingApiKey {α : Type} : PanicOr (Except GMapsClientError α) → Bool
  | PanicOr.ok (Except.error GMapsClientError.MissingApiKey) => true
  | _ => false

/-- `true` exactly on `Err(MissingApiKey)`. -/
def exceptIsMissingApiKey {α : Type} : Except GMapsClientError α → Bool
  | Except.error GMapsClientError.MissingApiKey => true
  | _ => false

lemma endsWithQuote_concat (l : Str) : endsWithQuote (l ++ [quoteChar]) = true := by
  unfold endsWithQuote
  rw [List.getLast?_concat]
  simp

lemma load_api_key_not_missing (env : Option Str) :
    returnsMissingApiKey (load_api_key env) = false := by
  cases env with
  | none => rfl
  | some s =>
    unfold load_api_key
    cases hgb : (startsWithQuote s && endsWithQuote s) with
    | false => simp [hgb, returnsMissingApiKey]
    | true =>
      simp only [hgb, if_true]
      cases s with
      | nil => rfl
      | cons a rest =>
        cases rest with
        | nil => rfl
        | cons b r2 => rfl

lemma new_not_missing (env : Option Str) :
    returnsMissingApiKey (new env) = false := by
  unfold new
  cases hl : load_api_key env with
  | panic => rfl
  | ok r =>
    cases r with
    | error e =>
      have hnm := load_api_key_not_missing env
      rw [hl] at hnm
      cases e with
      | MissingApiKey => exact absurd hnm (by simp [returnsMissingApiKey])
      | InvalidApiKey => rfl
      | ApiKeyLoadingFailure => rfl
      | RequestFailure => rfl
    | ok k => rfl

lemma validate_not_missing (c : GMapsClient ClientState.Invalidated)
    (net : Str → Option Json) :
    exceptIsMissingApiKey (validate_api_key c net) = false := by
  unfold validate_api_key
  cases net (validate_request c) with
  | none => rfl
  | some j =>
    by_cases h : (j.getField "status").eqStr "REQUEST_DENIED" = true
    · simp [h, exceptIsMissingApiKey]
    · simp [h, exceptIsMissingApiKey]

/-- Claim C1: the two query operations are offered exactly by the
`Validated` impl block, the `Invalidated` impl block offers only
construction and validation, and every `Validated` client producible
through the API arises from a successful `validate_api_key` call on a
producible `Invalidated` client. -/
theorem queries_gated_to_validated_state :
    (∀ s : ClientState,
      (Operation.findSinglePlace ∈ availableOps s ∨ Operation.findPlaces ∈ availableOps s) ↔
        s = ClientState.Validated) ∧
    (∀ s : ClientState,
      (Operation.construct ∈ availableOps s ∨ Operation.validate ∈ availableOps s) ↔
        s = ClientState.Invalidated) ∧
    (∀ v : GMapsClient ClientState.Validated, Constructed ClientState.Validated v →
      ∃ (c : GMapsClient ClientState.Invalidated) (net : Str → Option Json),
        Constructed ClientState.Invalidated c ∧ validate_api_key c net = Except.ok v) := by
  refine ⟨?_, ?_, ?_⟩
  · intro s; cases s <;> decide
  · intro s; cases s <;> decide
  · intro v h
    cases h with
    | of_validate c net v hc hv => exact ⟨c, net, hc, hv⟩

/-- Witness for C1: a concrete `Validated` client, built by `new` followed
by a successful `validate_api_key`, is traced back to that call. -/
theorem queries_gated_to_validated_state_witness :
    ∃ (c : GMapsClient ClientState.Invalidated) (net : Str → Option Json),
      Constructed ClientState.Invalidated c ∧
      validate_api_key c net =
        Except.ok ({ api_key := lit "abc", base_url := google_base_url } :
          GMapsClient ClientState.Validated) :=
  queries_gated_to_validated_state.2.2 _
    (Constructed.of_validate _ (fun _ => some Json.null) _
      (Constructed.of_new (some (lit "abc")) _ rfl) rfl)

/-- Claim C2: `validate_api_key` returns `RequestFailure` exactly when the
request or the decoding fails; on a decoded body it returns
`InvalidApiKey` exactly when the top-level `status` field equals the
string `REQUEST_DENIED`, and for any other value of that field it
succeeds with the `Validated` client. -/
theorem validate_api_key_error_characterization :
    ∀ (c : GMapsClient ClientState.Invalidated) (net : Str → Option Json),
      (validate_api_key c net = Except.error GMapsClientError.RequestFailure ↔
        net (validate_request c) = none) ∧
      (∀ j : Json, net (validate_request c) = some j →
        ((validate_api_key c net = Except.error GMapsClientError.InvalidApiKey ↔
            (j.getField "status").eqStr "REQUEST_DENIED" = true) ∧
          ((j.getField "status").eqStr "REQUEST_DENIED" = false →
            validate_api_key c net =
              Except.ok { api_key := c.api_key, base_url := c.base_url }))) := by
  intro c net
  constructor
  · unfold validate_api_key
    cases hnet : net (validate_request c) with
    | none => simp
    | some j =>
      by_cases h : (j.getField "status").eqStr "REQUEST_DENIED" = true
      · simp [h]
      · simp [h]
  · intro j hj
    unfold validate_api_key
    rw [hj]
    by_cases h : (j.getField "status").eqStr "REQUEST_DENIED" = true
    · refine ⟨by simp [h], ?_⟩
      intro hf
      rw [h] at hf
      cases hf
    · refine ⟨by simp [h], fun _ => by simp [h]⟩

/-- Witness for C2: a failed request yields `RequestFailure`, a
`REQUEST_DENIED` status yields `InvalidApiKey`, and a `ZERO_RESULTS`
status yields the `Validated` client. -/
theorem validate_api_key_error_characterization_witness :
    validate_api_key { api_key := lit "k", base_url := lit "b" } (fun _ => none) =
      Except.error GMapsClientError.RequestFailure ∧
    validate_api_key { api_key := lit "k", base_url := lit "b" }
        (fun _ => some (Json.obj [("status", Json.str "REQUEST_DENIED")])) =
      Except.error GMapsClientError.InvalidApiKey ∧
    validate_api_key { api_key := lit "k", base_url := lit "b" }
        (fun _ => some (Json.obj [("status", Json.str "ZERO_RESULTS")])) =
      Except.ok { api_key := lit "k", base_url := lit "b" } := by
  refine ⟨(validate_api_key_error_characterization _ _).1.mpr rfl, ?_, ?_⟩
  · exact ((validate_api_key_error_characterization _
      (fun _ => some (Json.obj [("status", Json.str "REQUEST_DENIED")]))).2 _ rfl).1.mpr rfl
  · exact ((validate_api_key_error_characterization _
      (fun _ => some (Json.obj [("status", Json.str "ZERO_RESULTS")]))).2 _ rfl).2 rfl

/-- Counterexample to C3 as stated: the one-character value `"` both
starts and ends with a double quote, yet `load_api_key` panics on it
instead of returning the value with the quotes removed. -/
theorem load_api_key_single_quote_counterexample :
    startsWithQuote [quoteChar] = true ∧ endsWithQuote [quoteChar] = true ∧
      load_api_key (some [quoteChar]) = PanicOr.panic :=
  ⟨rfl, rfl, rfl⟩

/-- Claim C3 (amended: the leading and trailing quote must be two distinct
characters, i.e. the value has length at least two — the one-character
value `"` panics instead, see the counterexample): a value wrapped in a
quote pair loads as its inner substring with exactly the one wrapping
pair stripped, and a value not wrapped in such a pair loads unchanged. -/
theorem load_api_key_strips_one_quote_pair (s t : Str) :
    (s = quoteChar :: (t ++ [quoteChar]) →
      load_api_key (some s) = PanicOr.ok (Except.ok t)) ∧
    (¬(startsWithQuote s = true ∧ endsWithQuote s = true) →
      load_api_key (some s) = PanicOr.ok (Except.ok s)) := by
  constructor
  · rintro rfl
    cases t with
    | nil => rfl
    | cons a t' =>
      have h2 : endsWithQuote (quoteChar :: a :: (t' ++ [quoteChar])) = true := by
        have h := endsWithQuote_concat (quoteChar :: a :: t')
        rwa [List.cons_append, List.cons_append] at h
      have h3 : (a :: (t' ++ [quoteChar])).dropLast = a :: t' := by
        rw [← List.cons_append, List.dropLast_concat]
      show load_api_key (some (quoteChar :: a :: (t' ++ [quoteChar]))) =
        PanicOr.ok (Except.ok (a :: t'))
      simp [load_api_key, startsWithQuote, h2, h3]
  · intro hne
    have hfalse : (startsWithQuote s && endsWithQuote s) = false := by
      cases hs : startsWithQuote s <;> cases he : endsWithQuote s <;> simp_all
    simp [load_api_key, hfalse]

/-- Witness for C3 (amended): the value `"abc"` (with wrapping quotes)
loads as `abc`, and the unquoted value `abc` loads unchanged. -/
theorem load_api_key_strips_one_quote_pair_witness :
    load_api_key (some (quoteChar :: (lit "abc" ++ [quoteChar]))) =
      PanicOr.ok (Except.ok (lit "abc")) ∧
    load_api_key (some (lit "abc")) = PanicOr.ok (Except.ok (lit "abc")) :=
  ⟨(load_api_key_strips_one_quote_pair _ (lit "abc")).1 rfl,
   (load_api_key_strips_one_quote_pair (lit "abc") []).2 (by decide)⟩

/-- Claim C4: a successful `validate_api_key` hands back a `Validated`
client with the very same `api_key` and `base_url` as the consumed
`Invalidated` client. -/
theorem validate_api_key_preserves_fields :
    ∀ (c : GMapsClient ClientState.Invalidated) (net : Str → Option Json)
      (v : GMapsClient ClientState.Validated),
      validate_api_key c net = Except.ok v →
      v.api_key = c.api_key ∧ v.base_url = c.base_url := by
  intro c net v h
  unfold validate_api_key at h
  cases hnet : net (validate_request c) with
  | none => simp only [hnet] at h; cases h
  | some j =>
    simp only [hnet] at h
    by_cases hs : (j.getField "status").eqStr "REQUEST_DENIED" = true
    · rw [if_pos hs] at h; cases h
    · rw [if_neg hs] at h
      cases h
      exact ⟨rfl, rfl⟩

/-- Witness for C4: validating a concrete client against a body with no
`status` field succeeds and keeps both fields. -/
theorem validate_api_key_preserves_fields_witness :
    ({ api_key := lit "k", base_url := lit "b" } :
        GMapsClient ClientState.Validated).api_key = lit "k" ∧
    ({ api_key := lit "k", base_url := lit "b" } :
        GMapsClient ClientState.Validated).base_url = lit "b" :=
  validate_api_key_preserves_fields { api_key := lit "k", base_url := lit "b" }
    (fun _ => some Json.null) { api_key := lit "k", base_url := lit "b" } rfl

/-- Claim C5: the two query operations return the raw decoded JSON body
unconditionally when the network call and decode succeed, and panic
(abort) instead of returning an error when either fails — their result
type `PanicOr Json` carries no error value at all. -/
theorem queries_return_raw_json_or_panic :
    ∀ (c : GMapsClient ClientState.Validated) (place query : Str) (net : Str → Option Json),
      (net (find_single_place_request c place) = none →
        find_single_place_from_text c place net = PanicOr.panic) ∧
      (∀ j : Json, net (find_single_place_request c place) = some j →
        find_single_place_from_text c place net = PanicOr.ok j) ∧
      (net (find_places_request c query) = none →
        find_places_from_text c query net = PanicOr.panic) ∧
      (∀ j : Json, net (find_places_request c query) = some j →
        find_places_from_text c query net = PanicOr.ok j) := by
  intro c place query net
  refine ⟨?_, ?_, ?_, ?_⟩
  · intro h; unfold find_single_place_from_text; rw [h]
  · intro j h; unfold find_single_place_from_text; rw [h]
  · intro h; unfold find_places_from_text; rw [h]
  · intro j h; unfold find_places_from_text; rw [h]

/-- Witness for C5: a failing network call makes the single-place query
panic, and a decoded body is returned as is by the text-search query. -/
theorem queries_return_raw_json_or_panic_witness :
    find_single_place_from_text { api_key := lit "k", base_url := lit "b" }
      (lit "x") (fun _ => none) = PanicOr.panic ∧
    find_places_from_text { api_key := lit "k", base_url := lit "b" }
      (lit "x") (fun _ => some Json.null) = PanicOr.ok Json.null :=
  ⟨(queries_return_raw_json_or_panic { api_key := lit "k", base_url := lit "b" }
      (lit "x") (lit "x") (fun _ => none)).1 rfl,
   (queries_return_raw_json_or_panic { api_key := lit "k", base_url := lit "b" }
      (lit "x") (lit "x") (fun _ => some Json.null)).2.2.2 Json.null rfl⟩

/-- Claim C6: when the environment yields no `GMAPS_API_KEY` value, `new`
fails with an error of kind `MissingApiKey` or `ApiKeyLoadingFailure`
(concretely the latter) and never returns a client. -/
theorem new_fails_without_api_key :
    ∃ e : GMapsClientError,
      new none = PanicOr.ok (Except.error e) ∧
      (e = GMapsClientError.MissingApiKey ∨ e = GMapsClientError.ApiKeyLoadingFailure) :=
  ⟨GMapsClientError.ApiKeyLoadingFailure, rfl, Or.inr rfl⟩

/-- Claim C7: for every query string, `find_places_from_text` targets the
URL the spec prescribes — base address, path
`/maps/api/place/textsearch/json`, the query inserted verbatim (no
percent-encoding), the fixed radius `5000`, and the held key. -/
theorem find_places_request_matches_spec :
    ∀ (c : GMapsClient ClientState.Validated) (q : Str),
      find_places_request c q = spec_places_url c.base_url q c.api_key := by
  intro c q
  unfold find_places_request find_places_url spec_places_url
  simp only [List.append_assoc]
  rfl

/-- Claim C8: for every place string, `find_single_place_from_text`
targets the URL the spec prescribes — base address, path
`/maps/api/place/findplacefromtext/json`, the input inserted verbatim,
`inputtype=textquery`, the fixed field selection, the fixed location
bias `point:50,10`, and the held key. -/
theorem find_single_place_request_matches_spec :
    ∀ (c : GMapsClient ClientState.Validated) (p : Str),
      find_single_place_request c p = spec_single_place_url c.base_url p c.api_key := by
  intro c p
  unfold find_single_place_request find_single_place_url spec_single_place_url
  simp only [List.append_assoc]
  rfl

/-- Claim C9: no operation ever returns the `MissingApiKey` error; in
particular an absent `GMAPS_API_KEY` makes both `load_api_key` and `new`
return `ApiKeyLoadingFailure`. -/
theorem missing_api_key_unreachable :
    ∀ (env : Option Str) (c : GMapsClient ClientState.Invalidated) (net : Str → Option Json),
      returnsMissingApiKey (load_api_key env) = false ∧
      returnsMissingApiKey (new env) = false ∧
      exceptIsMissingApiKey (validate_api_key c net) = false ∧
      load_api_key none = PanicOr.ok (Except.error GMapsClientError.ApiKeyLoadingFailure) ∧
      new none = PanicOr.ok (Except.error GMapsClientError.ApiKeyLoadingFailure) := by
  intro env c net
  exact ⟨load_api_key_not_missing env, new_not_missing env, validate_not_missing c net,
    rfl, rfl⟩

/-- Claim C10: `load_api_key` panics exactly on the environment value
consisting of the single double-quote character; every other value makes
it return. -/
theorem load_api_key_panics_iff_single_quote :
    ∀ s : Str, (load_api_key (some s) = PanicOr.panic ↔ s = [quoteChar]) := by
  intro s
  constructor
  · intro h
    cases s with
    | nil => simp [load_api_key, startsWithQuote] at h
    | cons a rest =>
      cases hgb : (startsWithQuote (a :: rest) && endsWithQuote (a :: rest)) with
      | false => simp [load_api_key, hgb] at h
      | true =>
        cases rest with
        | nil =>
          have ha : a = quoteChar := by
            have hh := hgb
            simp [startsWithQuote, endsWithQuote] at hh
            exact hh
          subst ha
          rfl
        | cons b r2 => simp [load_api_key, hgb] at h
  · rintro rfl
    rfl

/-- Witness for C10: the single-quote value makes `load_api_key` panic. -/
theorem load_api_key_panics_iff_single_quote_witness :
    load_api_key (some [quoteChar]) = PanicOr.panic :=
  (load_api_key_panics_iff_single_quote [quoteChar]).mpr rfl

end GMaps
